import Mathlib

/-!
Shallow embedding of `src/custom_components/jira_ticket_search/JiraTicketSearchComponent.py`
(class `JiraSearchTicketComponent`) and proofs of its specified properties.

Python JSON values are modelled by an inductive `Json`; Python `dict.get`,
truthiness, indexing, slicing and `str()` are modelled by explicit helpers.
HTTP traffic is modelled by an environment function from requests to
responses; every operation threads a log of the requests it performed, in
order, and returns `Except PyError` results (a raised Python exception is an
`Except.error`).
-/

namespace Jira

/-- A decoded JSON value (the result of `response.json()` and its parts). -/
inductive Json where
  | null
  | bool (b : Bool)
  | num (n : Int)
  | str (s : String)
  | arr (elems : List Json)
  | obj (kvs : List (String × Json))

/-- Python exceptions raised by the component.  `apiError` is the
`ValueError(f"Jira API request failed: ...")` of `_make_request`, carrying the
response status code and raw response body; `jsonDecodeError` is what
`response.json()` raises on an unparsable body; `keyError` / `typeError` are
the builtin exceptions of indexing and slicing. -/
inductive PyError where
  | apiError (status : Nat) (body : String)
  | jsonDecodeError
  | keyError (k : String)
  | typeError

/-- Python `dict.get(k, d)`.  On non-mapping receivers CPython would raise
`AttributeError`; the embedding totalises that case to the default, which no
call site of the component reaches with a conclusion-relevant value. -/
def Json.getD (j : Json) (k : String) (d : Json) : Json :=
  match j with
  | .obj kvs =>
    match kvs.lookup k with
    | some v => v
    | none => d
  | _ => d

/-- Python `dict.get(k)` (default `None`). -/
def Json.get (j : Json) (k : String) : Json :=
  j.getD k Json.null

/-- Python truthiness of a JSON value (`bool(x)`). -/
def Json.truthy : Json → Bool
  | .null => false
  | .bool b => b
  | .num n => n != 0
  | .str s => s != ""
  | .arr elems => !elems.isEmpty
  | .obj kvs => !kvs.isEmpty

/-- Python subscription `j[k]`: `KeyError` on a missing key, `TypeError` on a
non-mapping receiver. -/
def pyIndex (j : Json) (k : String) : Except PyError Json :=
  match j with
  | .obj kvs =>
    match kvs.lookup k with
    | some v => .ok v
    | none => .error (.keyError k)
  | _ => .error .typeError

/-- Python slice `j[:n]` on strings and lists (`TypeError` otherwise). -/
def pySlice (j : Json) (n : Nat) : Except PyError Json :=
  match j with
  | .str s => .ok (.str (String.mk (s.data.take n)))
  | .arr elems => .ok (.arr (elems.take n))
  | _ => .error .typeError

/-- Python iteration `for x in j` as used by the component (lists only;
other receivers are modelled as a `TypeError`). -/
def pyElems (j : Json) : Except PyError (List Json) :=
  match j with
  | .arr elems => .ok elems
  | _ => .error .typeError

/-- A single-quote character, used by the Python `repr` of strings. -/
def pySQuote : String :=
  String.singleton (Char.ofNat 39)

mutual

/-- Python `repr()` of a JSON value (string quoting simplified to plain
single quotes; only scalar values ever reach `str()` in the proofs below). -/
def pyRepr : Json → String
  | .null => "None"
  | .bool b => cond b "True" "False"
  | .num n => toString n
  | .str s => pySQuote ++ s ++ pySQuote
  | .arr elems => "[" ++ pyReprList elems ++ "]"
  | .obj kvs => "\x7b" ++ pyReprObj kvs ++ "\x7d"

/-- Comma-separated `repr`s of list elements. -/
def pyReprList : List Json → String
  | [] => ""
  | [x] => pyRepr x
  | x :: xs => pyRepr x ++ ", " ++ pyReprList xs

/-- Comma-separated `repr`s of dict entries. -/
def pyReprObj : List (String × Json) → String
  | [] => ""
  | [(k, v)] => pySQuote ++ k ++ pySQuote ++ ": " ++ pyRepr v
  | (k, v) :: kvs => pySQuote ++ k ++ pySQuote ++ ": " ++ pyRepr v ++ ", " ++ pyReprObj kvs

end

/-- Python `str()` of a JSON value, as interpolated by f-strings. -/
def pyStr : Json → String
  | .str s => s
  | j => pyRepr j

/-- Python `str.upper()` on one character (ASCII letters, as exercised by
ticket keys). -/
def pyUpperChar (c : Char) : Char :=
  if 97 ≤ c.toNat ∧ c.toNat ≤ 122 then Char.ofNat (c.toNat - 32) else c

/-- Python `str.upper()`. -/
def pyUpper (s : String) : String :=
  String.mk (s.data.map pyUpperChar)

/-- Python whitespace characters stripped by `str.strip()`. -/
def pyWhitespaceChar (c : Char) : Bool :=
  c.toNat = 32 || c.toNat = 9 || c.toNat = 10 || c.toNat = 13 || c.toNat = 11 || c.toNat = 12

/-- `str.strip()` on the character list: drop whitespace from both ends. -/
def stripChars (l : List Char) : List Char :=
  (((l.dropWhile pyWhitespaceChar).reverse.dropWhile pyWhitespaceChar)).reverse

/-- Python `str.strip()`. -/
def pyStrip (s : String) : String :=
  String.mk (stripChars s.data)

/-- The component configuration (`SearchConfig` in the spec): the instance
URL, credentials, search-type selector, result cap and the two inclusion
flags, exactly the declared inputs of the component. -/
structure Config where
  jira_instance : String
  api_token : String
  username : String
  search_type : String
  max_results : Int
  include_comments : Bool
  include_attachments : Bool

/-- One authenticated GET request as issued by `_make_request`: target URL,
`(username, api_token)` basic-auth pair, headers and optional query
parameters. -/
structure Request where
  url : String
  auth : String × String
  headers : List (String × String)
  params : Option (List (String × Json))

/-- An HTTP response: status code, raw body text, and the JSON decoding of
the body (`none` when the body is not valid JSON, in which case
`response.json()` raises). -/
structure Response where
  status_code : Nat
  text : String
  json : Option Json

/-- The remote Jira service, modelled as a function from requests to
responses. -/
abbrev Env := Request → Response

/-- The headers sent on every request. -/
def httpHeaders : List (String × String) :=
  [("Accept", "application/json"), ("Content-Type", "application/json")]

/-- The request value `_make_request` issues for a URL and params. -/
def mkRequest (cfg : Config) (url : String) (params : Option (List (String × Json))) : Request :=
  { url := url, auth := (cfg.username, cfg.api_token), headers := httpHeaders, params := params }

/-- `_make_request`: issue one authenticated GET; raise `ValueError` with the
status code and body on a non-200 status, otherwise return the parsed JSON
body. -/
def _make_request (env : Env) (cfg : Config) (url : String)
    (params : Option (List (String × Json))) (log : List Request) :
    List Request × Except PyError Json :=
  let req := mkRequest cfg url params
  let resp := env req
  let log := log ++ [req]
  if resp.status_code ≠ 200 then
    (log, .error (.apiError resp.status_code resp.text))
  else
    match resp.json with
    | some j => (log, .ok j)
    | none => (log, .error .jsonDecodeError)

/-- `_get_comments`: fetch and flatten the comment list of a ticket (empty
without a request when comments are not enabled).  The `ticket_key` argument
is the value read from the raw ticket, interpolated into the URL by the
f-string. -/
def _get_comments (env : Env) (cfg : Config) (ticket_key : Json) (log : List Request) :
    List Request × Except PyError (List Json) :=
  if !cfg.include_comments then (log, .ok [])
  else
    let url := cfg.jira_instance ++ "/rest/api/2/issue/" ++ pyStr ticket_key ++ "/comment"
    match _make_request env cfg url none log with
    | (log1, .error e) => (log1, .error e)
    | (log1, .ok response) =>
      match pyElems (response.getD "comments" (.arr [])) with
      | .error e => (log1, .error e)
      | .ok cs =>
        (log1, .ok (cs.map (fun comment => Json.obj
          [("author", (comment.getD "author" (.obj [])).getD "displayName" (.str "Unknown")),
           ("created", comment.get "created"),
           ("body", comment.get "body")])))

/-- `_get_attachments`: re-fetch the ticket resource and flatten its
attachment metadata (empty without a request when attachments are not
enabled). -/
def _get_attachments (env : Env) (cfg : Config) (ticket_key : Json) (log : List Request) :
    List Request × Except PyError (List Json) :=
  if !cfg.include_attachments then (log, .ok [])
  else
    let url := cfg.jira_instance ++ "/rest/api/2/issue/" ++ pyStr ticket_key
    match _make_request env cfg url none log with
    | (log1, .error e) => (log1, .error e)
    | (log1, .ok response) =>
      match pyElems ((response.getD "fields" (.obj [])).getD "attachment" (.arr [])) with
      | .error e => (log1, .error e)
      | .ok atts =>
        (log1, .ok (atts.map (fun attachment => Json.obj
          [("filename", attachment.get "filename"),
           ("size", attachment.get "size"),
           ("created", attachment.get "created"),
           ("url", attachment.get "content")])))

/-- The flat field set `_process_ticket` builds before optional enrichment
(the `processed_ticket` dict literal of the source, in insertion order). -/
def processedFields (cfg : Config) (ticket : Json) : List (String × Json) :=
  let ticket_key := ticket.get "key"
  let fields := ticket.getD "fields" (.obj [])
  [("key", ticket_key),
   ("summary", fields.get "summary"),
   ("description", fields.get "description"),
   ("status", (fields.getD "status" (.obj [])).get "name"),
   ("priority", (fields.getD "priority" (.obj [])).get "name"),
   ("assignee", if (fields.get "assignee").truthy
      then (fields.getD "assignee" (.obj [])).get "displayName"
      else .str "Unassigned"),
   ("reporter", if (fields.get "reporter").truthy
      then (fields.getD "reporter" (.obj [])).get "displayName"
      else .str "Unknown"),
   ("created", fields.get "created"),
   ("updated", fields.get "updated"),
   ("url", .str (cfg.jira_instance ++ "/browse/" ++ pyStr ticket_key))]

/-- `_process_ticket`: normalize one raw ticket record, optionally extending
it with fetched comments and attachments (each fetch can raise). -/
def _process_ticket (env : Env) (cfg : Config) (ticket : Json) (log : List Request) :
    List Request × Except PyError Json :=
  let ticket_key := ticket.get "key"
  let base := processedFields cfg ticket
  match
    ((if cfg.include_comments then
      match _get_comments env cfg ticket_key log with
      | (log1, .error e) => (log1, .error e)
      | (log1, .ok comments) => (log1, .ok (base ++ [("comments", Json.arr comments)]))
    else (log, .ok base)) :
      List Request × Except PyError (List (String × Json))) with
  | (log1, .error e) => (log1, .error e)
  | (log1, .ok kvs) =>
    if cfg.include_attachments then
      match _get_attachments env cfg ticket_key log1 with
      | (log2, .error e) => (log2, .error e)
      | (log2, .ok atts) => (log2, .ok (Json.obj (kvs ++ [("attachments", Json.arr atts)])))
    else (log1, .ok (Json.obj kvs))

/-- `_process_search_results`: normalize every returned issue, in order. -/
def _process_search_results (env : Env) (cfg : Config) :
    List Json → List Request → List Request × Except PyError (List Json)
  | [], log => (log, .ok [])
  | issue :: rest, log =>
    match _process_ticket env cfg issue log with
    | (log1, .error e) => (log1, .error e)
    | (log1, .ok t) =>
      match _process_search_results env cfg rest log1 with
      | (log2, .error e) => (log2, .error e)
      | (log2, .ok ts) => (log2, .ok (t :: ts))

/-- `_search_by_jql`: call the search endpoint with `jql` and `maxResults`
parameters and normalize every returned issue. -/
def _search_by_jql (env : Env) (cfg : Config) (jql_query : String) (log : List Request) :
    List Request × Except PyError (List Json) :=
  let url := cfg.jira_instance ++ "/rest/api/2/search"
  let params := some [("jql", Json.str jql_query), ("maxResults", Json.num cfg.max_results)]
  match _make_request env cfg url params log with
  | (log1, .error e) => (log1, .error e)
  | (log1, .ok response) =>
    match pyElems (response.getD "issues" (.arr [])) with
    | .error e => (log1, .error e)
    | .ok issues => _process_search_results env cfg issues log1

/-- `_search_by_text`: JQL search with the `text ~ "<input>"` template. -/
def _search_by_text (env : Env) (cfg : Config) (s : String) (log : List Request) :
    List Request × Except PyError (List Json) :=
  _search_by_jql env cfg ("text ~ \"" ++ s ++ "\"") log

/-- `_search_by_key`: trim and upper-case the key, try the direct
single-issue lookup, and on any exception fall back to one JQL search with
the key-equality expression. -/
def _search_by_key (env : Env) (cfg : Config) (key : String) (log : List Request) :
    List Request × Except PyError (List Json) :=
  let key := pyUpper (pyStrip key)
  let url := cfg.jira_instance ++ "/rest/api/2/issue/" ++ key
  match _make_request env cfg url none log with
  | (log1, .ok response) =>
    match _process_ticket env cfg response log1 with
    | (log2, .ok t) => (log2, .ok [t])
    | (log2, .error _) => _search_by_jql env cfg ("key = \"" ++ key ++ "\"") log2
  | (log1, .error _) => _search_by_jql env cfg ("key = \"" ++ key ++ "\"") log1

/-- `_search_by_specific_id`: trim and upper-case the ticket id, then fetch
it by key. -/
def _search_by_specific_id (env : Env) (cfg : Config) (ticket_id : String) (log : List Request) :
    List Request × Except PyError (List Json) :=
  let ticket_id := pyUpper (pyStrip ticket_id)
  _search_by_key env cfg ticket_id log

/-- `_search_by_assignee`: JQL search with the assignee-equality template. -/
def _search_by_assignee (env : Env) (cfg : Config) (assignee : String) (log : List Request) :
    List Request × Except PyError (List Json) :=
  _search_by_jql env cfg ("assignee = \"" ++ assignee ++ "\"") log

/-- `_search_by_reporter`: JQL search with the reporter-equality template. -/
def _search_by_reporter (env : Env) (cfg : Config) (reporter : String) (log : List Request) :
    List Request × Except PyError (List Json) :=
  _search_by_jql env cfg ("reporter = \"" ++ reporter ++ "\"") log

/-- `_search_by_status` (JQL search with the status-equality template). -/
def _search_by_status (env : Env) (cfg : Config) (status : String) (log : List Request) :
    List Request × Except PyError (List Json) :=
  _search_by_jql env cfg ("status = \"" ++ status ++ "\"") log

/-- One comment line of `_format_search_results`:
`  - <author> (<created>): <body sliced to 100>...`. -/
def formatComment (comment : Json) : Except PyError String :=
  match pyIndex comment "author" with
  | .error e => .error e
  | .ok author =>
    match pyIndex comment "created" with
    | .error e => .error e
    | .ok created =>
      match pyIndex comment "body" with
      | .error e => .error e
      | .ok body =>
        match pySlice body 100 with
        | .error e => .error e
        | .ok sliced =>
          .ok ("  - " ++ pyStr author ++ " (" ++ pyStr created ++ "): " ++ pyStr sliced ++ "...")

/-- One attachment line of `_format_search_results`:
`  - <filename> (<size> bytes)`. -/
def formatAttachment (attachment : Json) : Except PyError String :=
  match pyIndex attachment "filename" with
  | .error e => .error e
  | .ok filename =>
    match pyIndex attachment "size" with
    | .error e => .error e
    | .ok size => .ok ("  - " ++ pyStr filename ++ " (" ++ pyStr size ++ " bytes)")

/-- The comments block built by `_format_search_results` for one ticket
(when enabled and present): the per-comment lines after `Comments:`. -/
def commentsBlock (ticket : Json) : Except PyError String :=
  match pyIndex ticket "comments" with
  | .error e => .error e
  | .ok commentsVal =>
    match pyElems commentsVal with
    | .error e => .error e
    | .ok cs =>
      match cs.mapM formatComment with
      | .error e => .error e
      | .ok lines => .ok (String.intercalate "\n" ("Comments:" :: lines))

/-- The attachments block built by `_format_search_results` for one ticket
(when enabled and present). -/
def attachmentsBlock (ticket : Json) : Except PyError String :=
  match pyIndex ticket "attachments" with
  | .error e => .error e
  | .ok attachmentsVal =>
    match pyElems attachmentsVal with
    | .error e => .error e
    | .ok atts =>
      match atts.mapM formatAttachment with
      | .error e => .error e
      | .ok lines => .ok (String.intercalate "\n" ("Attachments:" :: lines))

/-- The per-ticket block of `_format_search_results`: the six labelled lines,
then optional comment and attachment blocks, joined with newlines. -/
def formatTicket (cfg : Config) (ticket : Json) : Except PyError String :=
  match pyIndex ticket "key" with
  | .error e => .error e
  | .ok key =>
  match pyIndex ticket "summary" with
  | .error e => .error e
  | .ok summary =>
  match pyIndex ticket "status" with
  | .error e => .error e
  | .ok status =>
  match pyIndex ticket "assignee" with
  | .error e => .error e
  | .ok assignee =>
  match pyIndex ticket "reporter" with
  | .error e => .error e
  | .ok reporter =>
  match pyIndex ticket "url" with
  | .error e => .error e
  | .ok url =>
  let ticket_info :=
    ["Key: " ++ pyStr key,
     "Summary: " ++ pyStr summary,
     "Status: " ++ pyStr status,
     "Assignee: " ++ pyStr assignee,
     "Reporter: " ++ pyStr reporter,
     "URL: " ++ pyStr url]
  match
    (if cfg.include_comments && (ticket.get "comments").truthy then
      match commentsBlock ticket with
      | .error e => .error e
      | .ok block => .ok (ticket_info ++ [block])
    else .ok ticket_info : Except PyError (List String)) with
  | .error e => .error e
  | .ok info2 =>
  match
    (if cfg.include_attachments && (ticket.get "attachments").truthy then
      match attachmentsBlock ticket with
      | .error e => .error e
      | .ok block => .ok (info2 ++ [block])
    else .ok info2 : Except PyError (List String)) with
  | .error e => .error e
  | .ok info3 => .ok (String.intercalate "\n" info3)

/-- `_format_search_results`: the fixed message on an empty list, otherwise
the ticket blocks joined with blank lines. -/
def _format_search_results (cfg : Config) (results : List Json) : Except PyError String :=
  if results.isEmpty then .ok "No tickets found."
  else
    match results.mapM (formatTicket cfg) with
    | .error e => .error e
    | .ok formatted_results => .ok (String.intercalate "\n\n" formatted_results)

/-- One registered langchain tool: its name, description and the wired
search-then-format callable (which strips its input first). -/
structure Tool where
  name : String
  description : String
  func : Env → List Request → String → List Request × Except PyError String

/-- Wire a search operation to the formatter, as each tool lambda of
`build_tool` does with `input_str.strip()`. -/
def toolFunc (cfg : Config)
    (search : Env → Config → String → List Request → List Request × Except PyError (List Json)) :
    Env → List Request → String → List Request × Except PyError String :=
  fun env log input_str =>
    match search env cfg (pyStrip input_str) log with
    | (log1, .error e) => (log1, .error e)
    | (log1, .ok results) => (log1, _format_search_results cfg results)

/-- `build_tool`: register one named tool per enabled search type, in the
source's fixed order. -/
def build_tool (cfg : Config) : List Tool :=
  let tools : List Tool := []
  let tools := if cfg.search_type ∈ ["jql", "all"] then tools ++
    [{ name := "Jira_Search_JQL",
       description := "Search Jira tickets using JQL (Jira Query Language). Input should be a valid JQL query string.",
       func := toolFunc cfg _search_by_jql }] else tools
  let tools := if cfg.search_type ∈ ["text", "all"] then tools ++
    [{ name := "Jira_Search_Text",
       description := "Search Jira tickets containing specific text. Input should be the text to search for.",
       func := toolFunc cfg _search_by_text }] else tools
  let tools := if cfg.search_type ∈ ["key", "all"] then tools ++
    [{ name := "Jira_Search_Key",
       description := "Search for a specific Jira ticket by its key (e.g., PROJECT-123).",
       func := toolFunc cfg _search_by_key }] else tools
  let tools := if cfg.search_type ∈ ["specific_id", "all"] then tools ++
    [{ name := "Jira_Search_Specific_ID",
       description := "Search for a specific Jira ticket by its ID (e.g., OAPI-10686).",
       func := toolFunc cfg _search_by_specific_id }] else tools
  let tools := if cfg.search_type ∈ ["assignee", "all"] then tools ++
    [{ name := "Jira_Search_Assignee",
       description := "Search Jira tickets assigned to a specific user. Input should be the username or email.",
       func := toolFunc cfg _search_by_assignee }] else tools
  let tools := if cfg.search_type ∈ ["reporter", "all"] then tools ++
    [{ name := "Jira_Search_Reporter",
       description := "Search Jira tickets reported by a specific user. Input should be the username or email.",
       func := toolFunc cfg _search_by_reporter }] else tools
  let tools := if cfg.search_type ∈ ["status", "all"] then tools ++
    [{ name := "Jira_Search_Status",
       description := "Search Jira tickets with a specific status. Input should be the status name (e.g., " ++ pySQuote ++ "In Progress" ++ pySQuote ++ ", " ++ pySQuote ++ "Done" ++ pySQuote ++ ").",
       func := toolFunc cfg _search_by_status }] else tools
  tools

/-- A concrete configuration used to exercise the theorems below. -/
def wCfg : Config :=
  { jira_instance := "https://x", api_token := "t", username := "u",
    search_type := "all", max_results := 10,
    include_comments := false, include_attachments := false }

/-- The concrete configuration with comment enrichment enabled. -/
def wCfgComments : Config :=
  { wCfg with include_comments := true }

/-- A service that answers every request with an empty JSON object. -/
def wEnvOk : Env :=
  fun _ => { status_code := 200, text := "", json := some (Json.obj []) }

/-- A service on which direct (parameterless) lookups fail with 404 while
JQL searches succeed with an empty issue list. -/
def wEnvNotFound : Env :=
  fun req =>
    if req.params.isSome then
      { status_code := 200, text := "", json := some (Json.obj [("issues", Json.arr [])]) }
    else
      { status_code := 404, text := "Issue Does Not Exist", json := none }

/-- A service on which the direct issue lookup succeeds but the comment
fetch fails with 500; JQL searches succeed with an empty issue list. -/
def wEnvCommentFail : Env :=
  fun req =>
    if req.url = "https://x/rest/api/2/search" then
      { status_code := 200, text := "", json := some (Json.obj [("issues", Json.arr [])]) }
    else if req.url = "https://x/rest/api/2/issue/PROJ-1/comment" then
      { status_code := 500, text := "boom", json := none }
    else
      { status_code := 200, text := "", json := some (Json.obj [("key", Json.str "PROJ-1")]) }

/-- A raw ticket record with a key and no fields. -/
def wTicket : Json :=
  Json.obj [("key", Json.str "PROJ-1")]

/-- A 50-character comment body. -/
def wBody50 : String :=
  "01234567890123456789012345678901234567890123456789"

/-- A normalized ticket carrying one comment with the 50-character body. -/
def wCommentTicket : Json :=
  Json.obj
    [("key", Json.str "PROJ-1"), ("summary", Json.str "S"), ("status", Json.str "Open"),
     ("assignee", Json.str "A"), ("reporter", Json.str "R"),
     ("url", Json.str "https://x/browse/PROJ-1"),
     ("comments", Json.arr
       [Json.obj [("author", Json.str "Alice"),
                  ("created", Json.str "2024-01-01"),
                  ("body", Json.str wBody50)]])]

/-! ### Request-log shape lemmas -/

theorem make_request_fst (env : Env) (cfg : Config) (url : String)
    (params : Option (List (String × Json))) (log : List Request) :
    (_make_request env cfg url params log).1 = log ++ [mkRequest cfg url params] := by
  unfold _make_request
  dsimp only
  split
  · rfl
  · split <;> rfl

theorem get_comments_fst (env : Env) (cfg : Config) (k : Json) (log : List Request) :
    ∃ ext, (_get_comments env cfg k log).1 = log ++ ext ∧ ∀ r ∈ ext, r.params = none := by
  unfold _get_comments
  split
  · exact ⟨[], (List.append_nil log).symm, by simp⟩
  · dsimp only
    rcases h : _make_request env cfg
      (cfg.jira_instance ++ "/rest/api/2/issue/" ++ pyStr k ++ "/comment") none log with ⟨log1, r⟩
    have hfst : log1 = log ++
        [mkRequest cfg (cfg.jira_instance ++ "/rest/api/2/issue/" ++ pyStr k ++ "/comment") none] := by
      have h2 := make_request_fst env cfg
        (cfg.jira_instance ++ "/rest/api/2/issue/" ++ pyStr k ++ "/comment") none log
      rw [h] at h2
      exact h2
    refine ⟨[mkRequest cfg (cfg.jira_instance ++ "/rest/api/2/issue/" ++ pyStr k ++ "/comment") none],
      ?_, by simp [mkRequest]⟩
    cases r with
    | error e => exact hfst
    | ok response =>
      dsimp only
      split <;> exact hfst

theorem get_attachments_fst (env : Env) (cfg : Config) (k : Json) (log : List Request) :
    ∃ ext, (_get_attachments env cfg k log).1 = log ++ ext ∧ ∀ r ∈ ext, r.params = none := by
  unfold _get_attachments
  split
  · exact ⟨[], (List.append_nil log).symm, by simp⟩
  · dsimp only
    rcases h : _make_request env cfg
      (cfg.jira_instance ++ "/rest/api/2/issue/" ++ pyStr k) none log with ⟨log1, r⟩
    have hfst : log1 = log ++
        [mkRequest cfg (cfg.jira_instance ++ "/rest/api/2/issue/" ++ pyStr k) none] := by
      have h2 := make_request_fst env cfg
        (cfg.jira_instance ++ "/rest/api/2/issue/" ++ pyStr k) none log
      rw [h] at h2
      exact h2
    refine ⟨[mkRequest cfg (cfg.jira_instance ++ "/rest/api/2/issue/" ++ pyStr k) none],
      ?_, by simp [mkRequest]⟩
    cases r with
    | error e => exact hfst
    | ok response =>
      dsimp only
      split <;> exact hfst

theorem process_ticket_fst (env : Env) (cfg : Config) (ticket : Json) (log : List Request) :
    ∃ ext, (_process_ticket env cfg ticket log).1 = log ++ ext ∧ ∀ r ∈ ext, r.params = none := by
  unfold _process_ticket
  dsimp only
  cases hic : cfg.include_comments with
  | false =>
    simp only [hic, Bool.false_eq_true, if_false]
    cases hia : cfg.include_attachments with
    | false =>
      simp only [hia, Bool.false_eq_true, if_false]
      exact ⟨[], (List.append_nil log).symm, by simp⟩
    | true =>
      simp only [hia, if_true]
      rcases get_attachments_fst env cfg (ticket.get "key") log with ⟨ext2, ha1, ha2⟩
      rcases h2 : _get_attachments env cfg (ticket.get "key") log with ⟨lg2, ra⟩
      rw [h2] at ha1
      have ha1' : lg2 = log ++ ext2 := ha1
      cases ra <;> exact ⟨ext2, ha1', ha2⟩
  | true =>
    simp only [hic, if_true]
    rcases get_comments_fst env cfg (ticket.get "key") log with ⟨ext1, hc1, hc2⟩
    rcases h : _get_comments env cfg (ticket.get "key") log with ⟨lg, rc⟩
    rw [h] at hc1
    have hc1' : lg = log ++ ext1 := hc1
    cases rc with
    | error e => exact ⟨ext1, hc1', hc2⟩
    | ok comments =>
      dsimp only
      cases hia : cfg.include_attachments with
      | false =>
        simp only [hia, Bool.false_eq_true, if_false]
        exact ⟨ext1, hc1', hc2⟩
      | true =>
        simp only [hia, if_true]
        rcases get_attachments_fst env cfg (ticket.get "key") lg with ⟨ext2, ha1, ha2⟩
        rcases h2 : _get_attachments env cfg (ticket.get "key") lg with ⟨lg2, ra⟩
        rw [h2] at ha1
        have ha1' : lg2 = lg ++ ext2 := ha1
        refine ⟨ext1 ++ ext2, ?_, ?_⟩
        · cases ra <;>
            exact ha1'.trans (by rw [hc1', List.append_assoc])
        · intro r hr
          rcases List.mem_append.mp hr with hr1 | hr2
          · exact hc2 r hr1
          · exact ha2 r hr2

theorem process_search_results_fst (env : Env) (cfg : Config) (issues : List Json)
    (log : List Request) :
    ∃ ext, (_process_search_results env cfg issues log).1 = log ++ ext ∧
      ∀ r ∈ ext, r.params = none := by
  induction issues generalizing log with
  | nil => exact ⟨[], (List.append_nil log).symm, by simp⟩
  | cons issue rest ih =>
    unfold _process_search_results
    rcases process_ticket_fst env cfg issue log with ⟨ext1, hp1, hp2⟩
    rcases h : _process_ticket env cfg issue log with ⟨log1, r⟩
    rw [h] at hp1
    have hp1' : log1 = log ++ ext1 := hp1
    cases r with
    | error e => exact ⟨ext1, hp1', hp2⟩
    | ok t =>
      dsimp only
      rcases ih log1 with ⟨ext2, hr1, hr2⟩
      rcases h2 : _process_search_results env cfg rest log1 with ⟨log2, r2⟩
      rw [h2] at hr1
      have hr1' : log2 = log1 ++ ext2 := hr1
      refine ⟨ext1 ++ ext2, ?_, ?_⟩
      · cases r2 <;> exact hr1'.trans (by rw [hp1', List.append_assoc])
      · intro r hr
        rcases List.mem_append.mp hr with hr1m | hr2m
        · exact hp2 r hr1m
        · exact hr2 r hr2m

theorem search_by_jql_fst (env : Env) (cfg : Config) (q : String) (log : List Request) :
    ∃ ext, (_search_by_jql env cfg q log).1 =
      log ++ mkRequest cfg (cfg.jira_instance ++ "/rest/api/2/search")
        (some [("jql", Json.str q), ("maxResults", Json.num cfg.max_results)]) :: ext ∧
      ∀ r ∈ ext, r.params = none := by
  unfold _search_by_jql
  dsimp only
  rcases h : _make_request env cfg (cfg.jira_instance ++ "/rest/api/2/search")
      (some [("jql", Json.str q), ("maxResults", Json.num cfg.max_results)]) log with ⟨log1, r⟩
  have hfst : log1 = log ++ [mkRequest cfg (cfg.jira_instance ++ "/rest/api/2/search")
      (some [("jql", Json.str q), ("maxResults", Json.num cfg.max_results)])] := by
    have h2 := make_request_fst env cfg (cfg.jira_instance ++ "/rest/api/2/search")
      (some [("jql", Json.str q), ("maxResults", Json.num cfg.max_results)]) log
    rw [h] at h2
    exact h2
  cases r with
  | error e =>
    refine ⟨[], ?_, by simp⟩
    rw [hfst]
  | ok response =>
    dsimp only
    cases hel : pyElems (response.getD "issues" (Json.arr [])) with
    | error e =>
      refine ⟨[], ?_, by simp⟩
      rw [hfst]
    | ok issues =>
      rcases process_search_results_fst env cfg issues log1 with ⟨ext2, hp1, hp2⟩
      refine ⟨ext2, ?_, hp2⟩
      rw [hp1, hfst, List.append_assoc]
      rfl

theorem search_by_jql_head (env : Env) (cfg : Config) (q : String) :
    (_search_by_jql env cfg q []).1.head? =
      some (mkRequest cfg (cfg.jira_instance ++ "/rest/api/2/search")
        (some [("jql", Json.str q), ("maxResults", Json.num cfg.max_results)])) := by
  rcases search_by_jql_fst env cfg q [] with ⟨ext, h1, _⟩
  rw [h1]
  rfl

theorem search_by_key_fst (env : Env) (cfg : Config) (key : String) (log : List Request) :
    ∃ ext, (_search_by_key env cfg key log).1 =
      log ++ mkRequest cfg (cfg.jira_instance ++ "/rest/api/2/issue/" ++ pyUpper (pyStrip key))
        none :: ext := by
  unfold _search_by_key
  dsimp only
  rcases h : _make_request env cfg
      (cfg.jira_instance ++ "/rest/api/2/issue/" ++ pyUpper (pyStrip key)) none log with ⟨log1, r⟩
  have hfst : log1 = log ++
      [mkRequest cfg (cfg.jira_instance ++ "/rest/api/2/issue/" ++ pyUpper (pyStrip key)) none] := by
    have h2 := make_request_fst env cfg
      (cfg.jira_instance ++ "/rest/api/2/issue/" ++ pyUpper (pyStrip key)) none log
    rw [h] at h2
    exact h2
  cases r with
  | error e =>
    rcases search_by_jql_fst env cfg ("key = \"" ++ pyUpper (pyStrip key) ++ "\"") log1
      with ⟨ext2, hj, _⟩
    refine ⟨mkRequest cfg (cfg.jira_instance ++ "/rest/api/2/search")
      (some [("jql", Json.str ("key = \"" ++ pyUpper (pyStrip key) ++ "\"")),
        ("maxResults", Json.num cfg.max_results)]) :: ext2, ?_⟩
    rw [hj, hfst, List.append_assoc]
    rfl
  | ok response =>
    dsimp only
    rcases process_ticket_fst env cfg response log1 with ⟨ext1, hp1, _⟩
    rcases hpt : _process_ticket env cfg response log1 with ⟨log2, r2⟩
    rw [hpt] at hp1
    have hp1' : log2 = log1 ++ ext1 := hp1
    cases r2 with
    | ok t =>
      refine ⟨ext1, ?_⟩
      rw [hp1', hfst, List.append_assoc]
      rfl
    | error e =>
      rcases search_by_jql_fst env cfg ("key = \"" ++ pyUpper (pyStrip key) ++ "\"") log2
        with ⟨ext2, hj, _⟩
      refine ⟨ext1 ++ mkRequest cfg (cfg.jira_instance ++ "/rest/api/2/search")
        (some [("jql", Json.str ("key = \"" ++ pyUpper (pyStrip key) ++ "\"")),
          ("maxResults", Json.num cfg.max_results)]) :: ext2, ?_⟩
      rw [hj, hp1', hfst, List.append_assoc, List.append_assoc]
      rfl

/-! ### The claims -/

/-- C2: for every input string `s`, the query expression sent for the text
search is exactly `text ~ "s"`, and for assignee, reporter and status it is
exactly the respective field-equality expression, with `s` substituted
verbatim (no quoting or escaping): the first request of each operation is
the search request whose `jql` parameter is precisely the templated
string. -/
theorem jira_query_expression_templates (env : Env) (cfg : Config) (s : String) :
    (_search_by_text env cfg s []).1.head? =
      some (mkRequest cfg (cfg.jira_instance ++ "/rest/api/2/search")
        (some [("jql", Json.str ("text ~ \"" ++ s ++ "\"")),
          ("maxResults", Json.num cfg.max_results)]))
    ∧ (_search_by_assignee env cfg s []).1.head? =
      some (mkRequest cfg (cfg.jira_instance ++ "/rest/api/2/search")
        (some [("jql", Json.str ("assignee = \"" ++ s ++ "\"")),
          ("maxResults", Json.num cfg.max_results)]))
    ∧ (_search_by_reporter env cfg s []).1.head? =
      some (mkRequest cfg (cfg.jira_instance ++ "/rest/api/2/search")
        (some [("jql", Json.str ("reporter = \"" ++ s ++ "\"")),
          ("maxResults", Json.num cfg.max_results)]))
    ∧ (_search_by_status env cfg s []).1.head? =
      some (mkRequest cfg (cfg.jira_instance ++ "/rest/api/2/search")
        (some [("jql", Json.str ("status = \"" ++ s ++ "\"")),
          ("maxResults", Json.num cfg.max_results)])) :=
  ⟨search_by_jql_head env cfg _, search_by_jql_head env cfg _,
   search_by_jql_head env cfg _, search_by_jql_head env cfg _⟩

/-- C5: `_make_request` raises the error carrying the response status code
and raw body exactly when the status is not 200, and on a 200 status whose
body parses it returns the parsed JSON body (appending the one request it
made to the log). -/
theorem jira_make_request_error_contract (env : Env) (cfg : Config) (url : String)
    (params : Option (List (String × Json))) (log : List Request) :
    ((_make_request env cfg url params log).2 =
        .error (.apiError (env (mkRequest cfg url params)).status_code
          (env (mkRequest cfg url params)).text)
      ↔ (env (mkRequest cfg url params)).status_code ≠ 200)
    ∧ (∀ j, (env (mkRequest cfg url params)).status_code = 200 →
        (env (mkRequest cfg url params)).json = some j →
        _make_request env cfg url params log = (log ++ [mkRequest cfg url params], .ok j)) := by
  unfold _make_request
  dsimp only
  constructor
  · by_cases hst : (env (mkRequest cfg url params)).status_code = 200
    · rw [if_neg (by simp [hst])]
      cases hjson : (env (mkRequest cfg url params)).json <;> simp [hst]
    · rw [if_pos hst]
      simp [hst]
  · intro j h200 hjson
    rw [if_neg (by simp [h200]), hjson]

/-- C7: formatting the empty result list yields exactly the fixed
message. -/
theorem jira_format_empty_results (cfg : Config) :
    _format_search_results cfg [] = .ok "No tickets found." := rfl

theorem obj_get_processed (cfg : Config) (ticket : Json) (extras : List (String × Json)) :
    (Json.obj (processedFields cfg ticket ++ extras)).get "url" =
        .str (cfg.jira_instance ++ "/browse/" ++ pyStr (ticket.get "key"))
    ∧ (Json.obj (processedFields cfg ticket ++ extras)).get "assignee" =
        (if ((ticket.getD "fields" (.obj [])).get "assignee").truthy
          then ((ticket.getD "fields" (.obj [])).getD "assignee" (.obj [])).get "displayName"
          else .str "Unassigned")
    ∧ (Json.obj (processedFields cfg ticket ++ extras)).get "reporter" =
        (if ((ticket.getD "fields" (.obj [])).get "reporter").truthy
          then ((ticket.getD "fields" (.obj [])).getD "reporter" (.obj [])).get "displayName"
          else .str "Unknown") :=
  ⟨rfl, rfl, rfl⟩

theorem process_ticket_ok_shape (env : Env) (cfg : Config) (ticket : Json)
    (log log' : List Request) (t : Json)
    (h : _process_ticket env cfg ticket log = (log', .ok t)) :
    ∃ extras, t = Json.obj (processedFields cfg ticket ++ extras) := by
  unfold _process_ticket at h
  dsimp only at h
  cases hic : cfg.include_comments with
  | false =>
    simp only [hic, Bool.false_eq_true, if_false] at h
    cases hia : cfg.include_attachments with
    | false =>
      simp only [hia, Bool.false_eq_true, if_false] at h
      simp only [Prod.mk.injEq, Except.ok.injEq] at h
      exact ⟨[], by rw [← h.2, List.append_nil]⟩
    | true =>
      simp only [hia, if_true] at h
      rcases ha : _get_attachments env cfg (ticket.get "key") log with ⟨lg2, ra⟩
      rw [ha] at h
      cases ra with
      | error e => simp at h
      | ok atts =>
        simp only [Prod.mk.injEq, Except.ok.injEq] at h
        exact ⟨[("attachments", Json.arr atts)], h.2.symm⟩
  | true =>
    simp only [hic, if_true] at h
    rcases hg : _get_comments env cfg (ticket.get "key") log with ⟨lg, rc⟩
    rw [hg] at h
    cases rc with
    | error e => simp at h
    | ok comments =>
      dsimp only at h
      cases hia : cfg.include_attachments with
      | false =>
        simp only [hia, Bool.false_eq_true, if_false] at h
        simp only [Prod.mk.injEq, Except.ok.injEq] at h
        exact ⟨[("comments", Json.arr comments)], h.2.symm⟩
      | true =>
        simp only [hia, if_true] at h
        rcases ha : _get_attachments env cfg (ticket.get "key") lg with ⟨lg2, ra⟩
        rw [ha] at h
        cases ra with
        | error e => simp at h
        | ok atts =>
          simp only [Prod.mk.injEq, Except.ok.injEq] at h
          refine ⟨[("comments", Json.arr comments), ("attachments", Json.arr atts)], ?_⟩
          rw [← h.2, List.append_assoc]
          rfl

/-- C1: every ticket normalized by `_process_ticket` carries the browse URL
`{base_url}/browse/{key}` derived from its key, and a falsy (missing,
null or empty) assignee or reporter in the raw record resolves to the
sentinels `"Unassigned"` and `"Unknown"` respectively, never to an empty or
absent field. -/
theorem jira_process_ticket_normalization (env : Env) (cfg : Config) (ticket : Json)
    (log log' : List Request) (t : Json)
    (h : _process_ticket env cfg ticket log = (log', .ok t)) :
    (∀ k, ticket.get "key" = .str k →
      t.get "url" = .str (cfg.jira_instance ++ "/browse/" ++ k))
    ∧ (((ticket.getD "fields" (.obj [])).get "assignee").truthy = false →
      t.get "assignee" = .str "Unassigned")
    ∧ (((ticket.getD "fields" (.obj [])).get "reporter").truthy = false →
      t.get "reporter" = .str "Unknown") := by
  obtain ⟨extras, rfl⟩ := process_ticket_ok_shape env cfg ticket log log' t h
  refine ⟨?_, ?_, ?_⟩
  · intro k hk
    rw [(obj_get_processed cfg ticket extras).1, hk]
    rfl
  · intro hfa
    rw [(obj_get_processed cfg ticket extras).2.1]
    simp [hfa]
  · intro hfr
    rw [(obj_get_processed cfg ticket extras).2.2]
    simp [hfr]

/-- C1 witness: a record with key `PROJ-1` and no fields normalizes to the
sentinel assignee and reporter and the derived browse URL. -/
theorem jira_process_ticket_normalization_witness :
    _process_ticket wEnvOk wCfg wTicket [] = ([], .ok (Json.obj (processedFields wCfg wTicket)))
    ∧ (Json.obj (processedFields wCfg wTicket)).get "url" = .str "https://x/browse/PROJ-1"
    ∧ (Json.obj (processedFields wCfg wTicket)).get "assignee" = .str "Unassigned"
    ∧ (Json.obj (processedFields wCfg wTicket)).get "reporter" = .str "Unknown" := by
  have h : _process_ticket wEnvOk wCfg wTicket [] =
      ([], .ok (Json.obj (processedFields wCfg wTicket))) := rfl
  have hmain := jira_process_ticket_normalization wEnvOk wCfg wTicket [] []
    (Json.obj (processedFields wCfg wTicket)) h
  exact ⟨h, hmain.1 "PROJ-1" rfl, hmain.2.1 rfl, hmain.2.2 rfl⟩

theorem search_by_key_fallback_eq (env : Env) (cfg : Config) (key : String)
    (hfail : (env (mkRequest cfg
        (cfg.jira_instance ++ "/rest/api/2/issue/" ++ pyUpper (pyStrip key)) none)).status_code
      ≠ 200) :
    _search_by_key env cfg key [] =
      _search_by_jql env cfg ("key = \"" ++ pyUpper (pyStrip key) ++ "\"")
        [mkRequest cfg (cfg.jira_instance ++ "/rest/api/2/issue/" ++ pyUpper (pyStrip key)) none] := by
  unfold _search_by_key
  dsimp only
  have hmr : _make_request env cfg
      (cfg.jira_instance ++ "/rest/api/2/issue/" ++ pyUpper (pyStrip key)) none [] =
      ([mkRequest cfg (cfg.jira_instance ++ "/rest/api/2/issue/" ++ pyUpper (pyStrip key)) none],
        .error (.apiError
          (env (mkRequest cfg
            (cfg.jira_instance ++ "/rest/api/2/issue/" ++ pyUpper (pyStrip key)) none)).status_code
          (env (mkRequest cfg
            (cfg.jira_instance ++ "/rest/api/2/issue/" ++ pyUpper (pyStrip key)) none)).text)) := by
    unfold _make_request
    dsimp only
    rw [if_pos hfail]
    rfl
  rw [hmr]

/-- C3: `_search_by_key` trims and upper-cases its input (`"proj-123"`
becomes `"PROJ-123"`), and that cleaned identifier is the one used in the
direct lookup URL and, on fallback, in the key-equality JQL expression. -/
theorem jira_search_by_key_cleans_input (env : Env) (cfg : Config) (key : String) :
    pyUpper (pyStrip "proj-123") = "PROJ-123"
    ∧ (_search_by_key env cfg key []).1.head? =
        some (mkRequest cfg
          (cfg.jira_instance ++ "/rest/api/2/issue/" ++ pyUpper (pyStrip key)) none)
    ∧ ((env (mkRequest cfg
          (cfg.jira_instance ++ "/rest/api/2/issue/" ++ pyUpper (pyStrip key)) none)).status_code
        ≠ 200 →
      _search_by_key env cfg key [] =
        _search_by_jql env cfg ("key = \"" ++ pyUpper (pyStrip key) ++ "\"")
          [mkRequest cfg
            (cfg.jira_instance ++ "/rest/api/2/issue/" ++ pyUpper (pyStrip key)) none]) := by
  refine ⟨by decide, ?_, search_by_key_fallback_eq env cfg key⟩
  rcases search_by_key_fst env cfg key [] with ⟨ext, h1⟩
  rw [h1]
  rfl

/-- C3 witness: on a service whose direct lookups fail with 404, searching
for `" proj-123 "` issues the direct lookup for the cleaned key `PROJ-123`
and falls back to the JQL expression with the same cleaned key. -/
theorem jira_search_by_key_cleans_input_witness :
    (_search_by_key wEnvNotFound wCfg " proj-123 " []).1.head? =
      some (mkRequest wCfg "https://x/rest/api/2/issue/PROJ-123" none)
    ∧ _search_by_key wEnvNotFound wCfg " proj-123 " [] =
      _search_by_jql wEnvNotFound wCfg "key = \"PROJ-123\""
        [mkRequest wCfg "https://x/rest/api/2/issue/PROJ-123" none] := by
  have h := jira_search_by_key_cleans_input wEnvNotFound wCfg " proj-123 "
  exact ⟨h.2.1, h.2.2 (by decide)⟩

/-- C4: when the direct lookup response is not 200, `_search_by_key` swallows
the error and behaves exactly as the fallback JQL search with the
key-equality expression; over the whole run exactly one parameterized (JQL
search) request is made, carrying that expression, and an error reaches the
caller only as the fallback result. -/
theorem jira_search_by_key_fallback_once (env : Env) (cfg : Config) (key : String)
    (hfail : (env (mkRequest cfg
        (cfg.jira_instance ++ "/rest/api/2/issue/" ++ pyUpper (pyStrip key)) none)).status_code
      ≠ 200) :
    _search_by_key env cfg key [] =
      _search_by_jql env cfg ("key = \"" ++ pyUpper (pyStrip key) ++ "\"")
        [mkRequest cfg (cfg.jira_instance ++ "/rest/api/2/issue/" ++ pyUpper (pyStrip key)) none]
    ∧ (_search_by_key env cfg key []).1.filter (fun r => r.params.isSome) =
      [mkRequest cfg (cfg.jira_instance ++ "/rest/api/2/search")
        (some [("jql", Json.str ("key = \"" ++ pyUpper (pyStrip key) ++ "\"")),
          ("maxResults", Json.num cfg.max_results)])] := by
  have heq := search_by_key_fallback_eq env cfg key hfail
  refine ⟨heq, ?_⟩
  rw [heq]
  rcases search_by_jql_fst env cfg ("key = \"" ++ pyUpper (pyStrip key) ++ "\"")
      [mkRequest cfg (cfg.jira_instance ++ "/rest/api/2/issue/" ++ pyUpper (pyStrip key)) none]
    with ⟨ext, h1, h2⟩
  rw [h1]
  have hrest : ext.filter (fun r => r.params.isSome) = [] := by
    rw [List.filter_eq_nil_iff]
    intro r hr
    simp [h2 r hr]
  show List.filter (fun r => r.params.isSome)
      (mkRequest cfg (cfg.jira_instance ++ "/rest/api/2/issue/" ++ pyUpper (pyStrip key)) none ::
        mkRequest cfg (cfg.jira_instance ++ "/rest/api/2/search")
          (some [("jql", Json.str ("key = \"" ++ pyUpper (pyStrip key) ++ "\"")),
            ("maxResults", Json.num cfg.max_results)]) :: ext) = _
  rw [List.filter_cons_of_neg (by simp [mkRequest]), List.filter_cons_of_pos (by rfl), hrest]

/-- C4 witness: with the direct lookup answering 404 and the search endpoint
answering an empty issue list, the key search returns the fallback result
and the only parameterized request is the key-equality JQL search. -/
theorem jira_search_by_key_fallback_once_witness :
    _search_by_key wEnvNotFound wCfg "PROJ-123" [] =
      _search_by_jql wEnvNotFound wCfg "key = \"PROJ-123\""
        [mkRequest wCfg "https://x/rest/api/2/issue/PROJ-123" none]
    ∧ (_search_by_key wEnvNotFound wCfg "PROJ-123" []).1.filter (fun r => r.params.isSome) =
      [mkRequest wCfg "https://x/rest/api/2/search"
        (some [("jql", Json.str "key = \"PROJ-123\""), ("maxResults", Json.num 10)])]
    ∧ (_search_by_key wEnvNotFound wCfg "PROJ-123" []).2 = .ok [] := by
  have h := jira_search_by_key_fallback_once wEnvNotFound wCfg "PROJ-123" (by decide)
  exact ⟨h.1, h.2, rfl⟩

/-- C10: the fallback of `_search_by_key` is triggered by any exception in
the direct-lookup branch: even when the lookup itself succeeds (status 200,
parsable body), a failure while normalizing the fetched ticket — such as a
failing comment or attachment enrichment request — still switches to the
key-equality JQL search. -/
theorem jira_search_by_key_fallback_on_process_error (env : Env) (cfg : Config) (key : String)
    (resp : Json) (log2 : List Request) (e : PyError)
    (h200 : (env (mkRequest cfg
        (cfg.jira_instance ++ "/rest/api/2/issue/" ++ pyUpper (pyStrip key)) none)).status_code
      = 200)
    (hjson : (env (mkRequest cfg
        (cfg.jira_instance ++ "/rest/api/2/issue/" ++ pyUpper (pyStrip key)) none)).json
      = some resp)
    (hproc : _process_ticket env cfg resp
        [mkRequest cfg (cfg.jira_instance ++ "/rest/api/2/issue/" ++ pyUpper (pyStrip key)) none]
      = (log2, .error e)) :
    _search_by_key env cfg key [] =
      _search_by_jql env cfg ("key = \"" ++ pyUpper (pyStrip key) ++ "\"") log2 := by
  unfold _search_by_key
  dsimp only
  have hmr : _make_request env cfg
      (cfg.jira_instance ++ "/rest/api/2/issue/" ++ pyUpper (pyStrip key)) none [] =
      ([mkRequest cfg (cfg.jira_instance ++ "/rest/api/2/issue/" ++ pyUpper (pyStrip key)) none],
        .ok resp) := by
    unfold _make_request
    dsimp only
    rw [if_neg (by simp [h200]), hjson]
    rfl
  rw [hmr]
  dsimp only
  rw [hproc]

/-- C10 witness: direct lookup succeeds, the comment enrichment request
fails with 500, and the search still falls back to (and returns the result
of) the key-equality JQL search. -/
theorem jira_search_by_key_fallback_on_process_error_witness :
    _search_by_key wEnvCommentFail wCfgComments "proj-1" [] =
      _search_by_jql wEnvCommentFail wCfgComments "key = \"PROJ-1\""
        [mkRequest wCfgComments "https://x/rest/api/2/issue/PROJ-1" none,
         mkRequest wCfgComments "https://x/rest/api/2/issue/PROJ-1/comment" none]
    ∧ (_search_by_key wEnvCommentFail wCfgComments "proj-1" []).2 = .ok [] := by
  have h := jira_search_by_key_fallback_on_process_error wEnvCommentFail wCfgComments "proj-1"
    (Json.obj [("key", Json.str "PROJ-1")])
    [mkRequest wCfgComments "https://x/rest/api/2/issue/PROJ-1" none,
     mkRequest wCfgComments "https://x/rest/api/2/issue/PROJ-1/comment" none]
    (.apiError 500 "boom") (by decide) rfl rfl
  exact ⟨h, rfl⟩

theorem get_ne_null_pyIndex (j : Json) (k : String) (v : Json)
    (h : j.get k = v) (hv : v ≠ Json.null) : pyIndex j k = .ok v := by
  cases j with
  | obj kvs =>
    unfold Json.get Json.getD at h
    dsimp only at h
    unfold pyIndex
    dsimp only
    cases hl : kvs.lookup k with
    | none =>
      rw [hl] at h
      dsimp only at h
      exact absurd h.symm hv
    | some w =>
      rw [hl] at h
      dsimp only at h
      rw [h]
  | null => exact absurd h.symm hv
  | bool b => exact absurd h.symm hv
  | num n => exact absurd h.symm hv
  | str s => exact absurd h.symm hv
  | arr elems => exact absurd h.symm hv

/-- C6: each comment renders as the line
`  - <author> (<created>): <first 100 characters of body>...`, with the
literal ellipsis appended for every comment — also when the body is 100
characters or shorter — and the ticket block includes exactly these lines
after `Comments:` when comments are requested and present. -/
theorem jira_format_comment_always_ellipsis (a cr : Json) (b : String) (cfg : Config)
    (ticket key summary status assignee reporter url : Json)
    (cs : List Json) (lines : List String) :
    (formatComment (Json.obj [("author", a), ("created", cr), ("body", Json.str b)]) =
        .ok ("  - " ++ pyStr a ++ " (" ++ pyStr cr ++ "): " ++ String.mk (b.data.take 100) ++ "..."))
    ∧ (b.length ≤ 100 →
        formatComment (Json.obj [("author", a), ("created", cr), ("body", Json.str b)]) =
          .ok ("  - " ++ pyStr a ++ " (" ++ pyStr cr ++ "): " ++ b ++ "..."))
    ∧ (cfg.include_comments = true → cfg.include_attachments = false →
        pyIndex ticket "key" = .ok key → pyIndex ticket "summary" = .ok summary →
        pyIndex ticket "status" = .ok status → pyIndex ticket "assignee" = .ok assignee →
        pyIndex ticket "reporter" = .ok reporter → pyIndex ticket "url" = .ok url →
        ticket.get "comments" = Json.arr cs → cs ≠ [] →
        cs.mapM formatComment = .ok lines →
        formatTicket cfg ticket = .ok (String.intercalate "\n"
          (["Key: " ++ pyStr key, "Summary: " ++ pyStr summary, "Status: " ++ pyStr status,
            "Assignee: " ++ pyStr assignee, "Reporter: " ++ pyStr reporter, "URL: " ++ pyStr url]
            ++ [String.intercalate "\n" ("Comments:" :: lines)]))) := by
  refine ⟨rfl, ?_, ?_⟩
  · intro hb
    have h2 : String.mk (b.data.take 100) = b := by
      rw [List.take_of_length_le hb]
    calc formatComment (Json.obj [("author", a), ("created", cr), ("body", Json.str b)]) =
        .ok ("  - " ++ pyStr a ++ " (" ++ pyStr cr ++ "): " ++ String.mk (b.data.take 100) ++ "...") :=
          rfl
      _ = .ok ("  - " ++ pyStr a ++ " (" ++ pyStr cr ++ "): " ++ b ++ "...") := by rw [h2]
  · intro hic hia hkey hsum hstat hass hrep hurl hcs hne hmap
    have hemp : cs.isEmpty = false := by
      cases cs with
      | nil => exact absurd rfl hne
      | cons c cs2 => rfl
    have hidx : pyIndex ticket "comments" = .ok (Json.arr cs) :=
      get_ne_null_pyIndex ticket "comments" (Json.arr cs) hcs (by intro hcontr; cases hcontr)
    have hblock : commentsBlock ticket = .ok (String.intercalate "\n" ("Comments:" :: lines)) := by
      unfold commentsBlock
      rw [hidx]
      dsimp only [pyElems]
      rw [hmap]
    unfold formatTicket
    simp only [hkey, hsum, hstat, hass, hrep, hurl]
    simp only [hic, hcs, Json.truthy, hemp, Bool.true_and, Bool.not_false, if_true]
    rw [hblock]
    simp only [hia, Bool.false_and, Bool.false_eq_true, if_false]

/-- C6 witness: a comment whose body has exactly 50 characters still renders
with the trailing ellipsis, both alone and inside the formatted ticket
block. -/
theorem jira_format_comment_always_ellipsis_witness :
    formatComment (Json.obj [("author", Json.str "Alice"), ("created", Json.str "2024-01-01"),
        ("body", Json.str wBody50)]) =
      .ok ("  - Alice (2024-01-01): " ++ wBody50 ++ "...")
    ∧ formatTicket wCfgComments wCommentTicket =
      .ok ("Key: PROJ-1\nSummary: S\nStatus: Open\nAssignee: A\nReporter: R\nURL: https://x/browse/PROJ-1\nComments:\n  - Alice (2024-01-01): "
        ++ wBody50 ++ "...") := by
  have h := jira_format_comment_always_ellipsis (Json.str "Alice") (Json.str "2024-01-01") wBody50
    wCfgComments wCommentTicket (Json.str "PROJ-1") (Json.str "S") (Json.str "Open")
    (Json.str "A") (Json.str "R") (Json.str "https://x/browse/PROJ-1")
    [Json.obj [("author", Json.str "Alice"), ("created", Json.str "2024-01-01"),
      ("body", Json.str wBody50)]]
    ["  - Alice (2024-01-01): " ++ wBody50 ++ "..."]
  constructor
  · exact h.2.1 (by decide)
  · have h3 := h.2.2 rfl rfl rfl rfl rfl rfl rfl rfl rfl (by simp) rfl
    rw [h3]
    rfl

/-- C8: with search type `all`, `build_tool` registers exactly the 7
distinct `Jira_Search_<Type>` tools, one per search-type tag other than
`all`; with a single type configured, exactly the corresponding tool is
registered. -/
theorem jira_build_tool_registration (cfg : Config) :
    (cfg.search_type = "all" →
      (build_tool cfg).map Tool.name =
        ["Jira_Search_JQL", "Jira_Search_Text", "Jira_Search_Key", "Jira_Search_Specific_ID",
         "Jira_Search_Assignee", "Jira_Search_Reporter", "Jira_Search_Status"]
      ∧ (build_tool cfg).length = 7
      ∧ ((build_tool cfg).map Tool.name).Nodup)
    ∧ (cfg.search_type = "jql" → (build_tool cfg).map Tool.name = ["Jira_Search_JQL"])
    ∧ (cfg.search_type = "text" → (build_tool cfg).map Tool.name = ["Jira_Search_Text"])
    ∧ (cfg.search_type = "key" → (build_tool cfg).map Tool.name = ["Jira_Search_Key"])
    ∧ (cfg.search_type = "specific_id" →
        (build_tool cfg).map Tool.name = ["Jira_Search_Specific_ID"])
    ∧ (cfg.search_type = "assignee" → (build_tool cfg).map Tool.name = ["Jira_Search_Assignee"])
    ∧ (cfg.search_type = "reporter" → (build_tool cfg).map Tool.name = ["Jira_Search_Reporter"])
    ∧ (cfg.search_type = "status" → (build_tool cfg).map Tool.name = ["Jira_Search_Status"]) := by
  refine ⟨?_, ?_, ?_, ?_, ?_, ?_, ?_, ?_⟩ <;> intro h
  · have hn : (build_tool cfg).map Tool.name =
        ["Jira_Search_JQL", "Jira_Search_Text", "Jira_Search_Key", "Jira_Search_Specific_ID",
         "Jira_Search_Assignee", "Jira_Search_Reporter", "Jira_Search_Status"] := by
      unfold build_tool
      rw [h]
      rfl
    refine ⟨hn, ?_, ?_⟩
    · have hl : (build_tool cfg).length = ((build_tool cfg).map Tool.name).length :=
        (List.length_map (build_tool cfg) Tool.name).symm
      rw [hl, hn]
      rfl
    · rw [hn]
      decide
  all_goals unfold build_tool
  all_goals rw [h]
  all_goals rfl

/-- C8 witness: the concrete `all` configuration yields the 7 named tools,
and the `key` configuration yields exactly the key tool. -/
theorem jira_build_tool_registration_witness :
    (build_tool wCfg).map Tool.name =
      ["Jira_Search_JQL", "Jira_Search_Text", "Jira_Search_Key", "Jira_Search_Specific_ID",
       "Jira_Search_Assignee", "Jira_Search_Reporter", "Jira_Search_Status"]
    ∧ (build_tool wCfg).length = 7
    ∧ ((build_tool wCfg).map Tool.name).Nodup
    ∧ (build_tool { wCfg with search_type := "key" }).map Tool.name = ["Jira_Search_Key"] := by
  have h1 := (jira_build_tool_registration wCfg).1 rfl
  have h2 := (jira_build_tool_registration { wCfg with search_type := "key" }).2.2.2.1 rfl
  exact ⟨h1.1, h1.2.1, h1.2.2, h2⟩

theorem toNat_char_ofNat_valid (n : Nat) (h : n < 55296) : (Char.ofNat n).toNat = n := by
  rw [Char.ofNat, dif_pos (Or.inl h)]
  rfl

theorem toNat_pyUpperChar (c : Char) :
    (pyUpperChar c).toNat = if 97 ≤ c.toNat ∧ c.toNat ≤ 122 then c.toNat - 32 else c.toNat := by
  unfold pyUpperChar
  split
  · rename_i h
    exact toNat_char_ofNat_valid _ (by omega)
  · rfl

theorem pyUpperChar_idem (c : Char) : pyUpperChar (pyUpperChar c) = pyUpperChar c := by
  have h1 := toNat_pyUpperChar c
  by_cases h : 97 ≤ c.toNat ∧ c.toNat ≤ 122
  · rw [if_pos h] at h1
    show (if 97 ≤ (pyUpperChar c).toNat ∧ (pyUpperChar c).toNat ≤ 122
        then Char.ofNat ((pyUpperChar c).toNat - 32) else pyUpperChar c) = pyUpperChar c
    rw [if_neg (by omega)]
  · rw [if_neg h] at h1
    have h2 : pyUpperChar c = c := by
      unfold pyUpperChar
      rw [if_neg h]
    rw [h2]
    exact h2

theorem pyWhitespaceChar_pyUpperChar (c : Char) :
    pyWhitespaceChar (pyUpperChar c) = pyWhitespaceChar c := by
  have h1 := toNat_pyUpperChar c
  by_cases h : 97 ≤ c.toNat ∧ c.toNat ≤ 122
  · rw [if_pos h] at h1
    have hl : pyWhitespaceChar (pyUpperChar c) = false := by
      unfold pyWhitespaceChar
      simp only [h1, Bool.or_eq_false_iff, decide_eq_false_iff_not]
      omega
    have hr : pyWhitespaceChar c = false := by
      unfold pyWhitespaceChar
      simp only [Bool.or_eq_false_iff, decide_eq_false_iff_not]
      omega
    rw [hl, hr]
  · have h2 : pyUpperChar c = c := by
      unfold pyUpperChar
      rw [if_neg h]
    rw [h2]

theorem dropWhile_self (p : α → Bool) (l : List α) :
    (l.dropWhile p).dropWhile p = l.dropWhile p := by
  induction l with
  | nil => rfl
  | cons a t ih =>
    by_cases h : p a
    · simp [List.dropWhile_cons, h, ih]
    · simp [List.dropWhile_cons, h]

theorem head?_dropWhile_false (p : α → Bool) (l : List α) (c : α)
    (h : (l.dropWhile p).head? = some c) : p c = false := by
  induction l with
  | nil => cases h
  | cons a t ih =>
    by_cases hpa : p a
    · rw [List.dropWhile_cons, if_pos hpa] at h
      exact ih h
    · rw [List.dropWhile_cons, if_neg hpa] at h
      simp only [List.head?_cons, Option.some.injEq] at h
      subst h
      exact Bool.eq_false_iff.mpr hpa

theorem getLast?_dropWhile (p : α → Bool) (l : List α) (h : l.dropWhile p ≠ []) :
    (l.dropWhile p).getLast? = l.getLast? := by
  induction l with
  | nil => simp at h
  | cons a t ih =>
    by_cases hpa : p a
    · rw [List.dropWhile_cons, if_pos hpa] at h ⊢
      have ht : t ≠ [] := by
        intro hte
        subst hte
        simp at h
      rw [ih h]
      cases t with
      | nil => exact absurd rfl ht
      | cons b t2 => rw [List.getLast?_cons_cons]
    · rw [List.dropWhile_cons, if_neg hpa]

theorem stripChars_idem (l : List Char) : stripChars (stripChars l) = stripChars l := by
  unfold stripChars
  generalize ha : l.dropWhile pyWhitespaceChar = a
  generalize hb : a.reverse.dropWhile pyWhitespaceChar = b
  have hd : b.reverse.dropWhile pyWhitespaceChar = b.reverse := by
    by_cases hbe : b = []
    · rw [hbe]
      simp
    · have h1 : b.reverse.head? = a.reverse.getLast? := by
        rw [List.head?_reverse, ← hb]
        exact getLast?_dropWhile pyWhitespaceChar a.reverse (by rw [hb]; exact hbe)
      have h2 : a.reverse.getLast? = a.head? := List.getLast?_reverse a
      cases hae : a with
      | nil =>
        rw [hae] at hb
        simp at hb
        exact absurd hb hbe
      | cons y as =>
        have h3 : a.head? = some y := by
          rw [hae]
          rfl
        have hy : pyWhitespaceChar y = false :=
          head?_dropWhile_false pyWhitespaceChar l y (by rw [ha, hae]; rfl)
        have h4 : b.reverse.head? = some y := by rw [h1, h2, h3]
        obtain ⟨ys, hys⟩ := List.head?_eq_some_iff.mp h4
        rw [hys, List.dropWhile_cons, if_neg (by simp [hy])]
  rw [hd, List.reverse_reverse, ← hb, dropWhile_self]

theorem stripChars_map_pyUpperChar (l : List Char) :
    stripChars (l.map pyUpperChar) = (stripChars l).map pyUpperChar := by
  unfold stripChars
  have hcomp : (pyWhitespaceChar ∘ pyUpperChar) = pyWhitespaceChar := by
    funext c
    exact pyWhitespaceChar_pyUpperChar c
  rw [List.dropWhile_map, hcomp, ← List.map_reverse, List.dropWhile_map, hcomp,
    ← List.map_reverse]

theorem map_pyUpperChar_idem (l : List Char) :
    (l.map pyUpperChar).map pyUpperChar = l.map pyUpperChar := by
  rw [List.map_map]
  have hcomp : (pyUpperChar ∘ pyUpperChar) = pyUpperChar := funext pyUpperChar_idem
  rw [hcomp]

theorem clean_idem (s : String) :
    pyUpper (pyStrip (pyUpper (pyStrip s))) = pyUpper (pyStrip s) := by
  calc pyUpper (pyStrip (pyUpper (pyStrip s)))
      = String.mk ((stripChars ((stripChars s.data).map pyUpperChar)).map pyUpperChar) := rfl
    _ = String.mk (((stripChars (stripChars s.data)).map pyUpperChar).map pyUpperChar) := by
        rw [stripChars_map_pyUpperChar]
    _ = String.mk ((stripChars (stripChars s.data)).map pyUpperChar) := by
        rw [map_pyUpperChar_idem]
    _ = String.mk ((stripChars s.data).map pyUpperChar) := by rw [stripChars_idem]
    _ = pyUpper (pyStrip s) := rfl

/-- C9: `_search_by_specific_id` is behaviorally identical to
`_search_by_key` on every input: same result and same requests, against
every service and configuration. -/
theorem jira_specific_id_equals_key_search (env : Env) (cfg : Config) (t : String)
    (log : List Request) :
    _search_by_specific_id env cfg t log = _search_by_key env cfg t log := by
  show _search_by_key env cfg (pyUpper (pyStrip t)) log = _search_by_key env cfg t log
  unfold _search_by_key
  rw [clean_idem]

/-- C5 witness: a 404 response raises the error carrying status 404 and the
raw body, while a 200 response with a parsable body returns the parsed
JSON. -/
theorem jira_make_request_error_contract_witness :
    (_make_request wEnvNotFound wCfg "https://x/rest/api/2/issue/NOPE" none []).2 =
      .error (.apiError 404 "Issue Does Not Exist")
    ∧ _make_request wEnvOk wCfg "https://x/rest/api/2/anything" none [] =
      ([mkRequest wCfg "https://x/rest/api/2/anything" none], .ok (Json.obj [])) := by
  have h1 := (jira_make_request_error_contract wEnvNotFound wCfg
    "https://x/rest/api/2/issue/NOPE" none []).1.mpr (by decide)
  have h2 := (jira_make_request_error_contract wEnvOk wCfg
    "https://x/rest/api/2/anything" none []).2 (Json.obj []) rfl rfl
  exact ⟨h1, h2⟩

end Jira
